import Mathlib

/-!
Verification of the shared-notes service.

The server side embeds the Netlify function in the repository's notes
handler: a method-dispatched CRUD endpoint over a key-value blob store
holding one record per note plus one recency-index record. The client
side embeds the sync layer's cache-backed list fetch. Machine integers
(millisecond timestamps, lengths) are modelled as `Nat`; JavaScript
objects whose exact key set matters (the serialized note views) are
modelled as association lists of key/value pairs so that key-stripping
is observable; the blob store is an association list of note records
plus an index cell that may hold a non-array JSON value, mirroring the
`Array.isArray` guards in the source. All functions are total, which
reflects that every fallible step in the source is guarded
(`readJson` catches parse errors, index reads are `isArray`-checked).
-/

namespace SimpleNotes

/-- Server-side limits, as in the source constants. -/
def MAX_CONTENT_CHARS : Nat := 2000

/-- Cap on the encoded image data-URL length. -/
def MAX_IMAGE_DATAURL_CHARS : Nat := 350000

/-- Cap on the recency index length. -/
def MAX_NOTES : Nat := 500

/-- Page size of the list endpoint. -/
def LIST_LIMIT : Nat := 50

/-- A stored note record, with the secret edit token. -/
structure Note where
  id : String
  content : String
  imageDataUrl : Option String
  createdAt : Nat
  updatedAt : Nat
  editToken : String
deriving DecidableEq

/-- A primitive JSON value appearing as a field of a serialized note. -/
inductive JPrim where
  | str (s : String)
  | num (n : Nat)
  | null
deriving DecidableEq

/-- A serialized JSON object: ordered key/value pairs, as JavaScript
object spread/rest produces. -/
abbrev JObj : Type := List (String × JPrim)

/-- The full JSON object for a note, `editToken` included: the shape the
record has in the blob store. -/
def noteObj (n : Note) : JObj :=
  [("id", .str n.id),
   ("content", .str n.content),
   ("imageDataUrl", match n.imageDataUrl with | some s => .str s | none => .null),
   ("createdAt", .num n.createdAt),
   ("updatedAt", .num n.updatedAt),
   ("editToken", .str n.editToken)]

/-- The sanitized note view: rest-destructuring away the key
named editToken, keeping every other key. -/
def cleanNote (n : Note) : JObj :=
  (noteObj n).filter (fun kv => !(kv.1 == "editToken"))

/-- The index record's JSON value: either an array of ids or any
non-array value (the source guards every read with an isArray check,
under which all non-array values behave alike). -/
inductive IndexVal where
  | arr (ids : List String)
  | nonArr
deriving DecidableEq

/-- The blob store: note records keyed by id (the source prefixes keys
with a fixed tag, which is injective in the id and dropped here), plus
the index cell, absent or holding a JSON value. -/
structure Store where
  notes : List (String × Note)
  index : Option IndexVal
deriving DecidableEq

/-- Read a note record (`store.get` of the note key, JSON-typed). -/
def lookupNote (s : Store) (id : String) : Option Note :=
  match s.notes.find? (fun kv => kv.1 == id) with
  | some kv => some kv.2
  | none => none

/-- Key-value set: replace the binding for the key, or add it. -/
def insertRec : List (String × Note) → String → Note → List (String × Note)
  | [], id, n => [(id, n)]
  | kv :: rest, id, n =>
      if kv.1 = id then (id, n) :: rest else kv :: insertRec rest id n

/-- Write a note record (`store.setJSON` of the note key). -/
def setNote (s : Store) (id : String) (n : Note) : Store :=
  { s with notes := insertRec s.notes id n }

/-- Delete a note record (`store.delete` of the note key). -/
def delNote (s : Store) (id : String) : Store :=
  { s with notes := s.notes.filter (fun kv => !(kv.1 == id)) }

/-- Read the index as an array: the source's pattern of defaulting a
missing value to the empty array and discarding non-array values. -/
def readIndexArray (s : Store) : List String :=
  match s.index with
  | some (.arr l) => l
  | _ => []

/-- Write the index record as a JSON array. -/
def setIndex (s : Store) (l : List String) : Store :=
  { s with index := some (.arr l) }

/-- The fields of a parsed JSON request body that the handler reads;
a missing field is `none`. -/
structure Body where
  content : Option String
  imageDataUrl : Option String
  id : Option String
  token : Option String
deriving DecidableEq

/-- The body the handler uses when the raw body fails to parse as JSON:
an empty object, every field missing. -/
def emptyBody : Body := ⟨none, none, none, none⟩

/-- The readJson helper: a parse failure (modelled as `none`) yields the
empty object instead of an error. -/
def readJson : Option Body → Body
  | some b => b
  | none => emptyBody

/-- JavaScript whitespace as far as note contents are concerned. -/
def isSpaceChar (c : Char) : Bool :=
  c = ' ' ∨ c = '\t' ∨ c = '\n' ∨ c = '\r' ∨ c = '\x0b' ∨ c = '\x0c'

/-- JavaScript String.prototype.trim: strip leading and trailing
whitespace. -/
def jsTrim (s : String) : String :=
  String.mk (((s.data.dropWhile isSpaceChar).reverse.dropWhile isSpaceChar).reverse)

/-- The imageDataUrl normalization: a missing or empty (falsy) field
becomes null, anything else is kept. -/
def normImage : Option String → Option String
  | some s => if s = "" then none else some s
  | none => none

/-- The image size check guarded by truthiness in the source. -/
def imageTooLarge : Option String → Bool
  | some s => s.length > MAX_IMAGE_DATAURL_CHARS
  | none => false

/-- HTTP method of a request; `OTHER` covers every unhandled method. -/
inductive Method where
  | GET | POST | PUT | DELETE | OPTIONS | OTHER
deriving DecidableEq

/-- A request: a method and a raw body (`none` = not parseable JSON). -/
structure Request where
  method : Method
  rawBody : Option Body
deriving DecidableEq

/-- Response bodies, by shape as serialized in the source. -/
inductive RespBody where
  | empty
  | errorMsg (msg : String)
  | notesList (notes : List JObj)
  | created (note : JObj) (token : String)
  | updatedNote (note : JObj)
  | deletedOk
deriving DecidableEq

/-- A response: status code plus body. -/
structure Resp where
  status : Nat
  body : RespBody
deriving DecidableEq

/-- The note objects serialized inside a response body. -/
def RespBody.noteObjs : RespBody → List JObj
  | .notesList ns => ns
  | .created n _ => [n]
  | .updatedNote n => [n]
  | _ => []

/-- The top-level token field of a response body, when present. -/
def RespBody.tokenField : RespBody → Option String
  | .created _ t => some t
  | _ => none

/-- GET: read the index, take the first page of ids, fetch each note,
sanitize, and drop the ids whose record is missing. -/
def handleGet (s : Store) : Resp × Store :=
  let ids := (readIndexArray s).take LIST_LIMIT
  let cleaned := ids.filterMap (fun id => (lookupNote s id).map cleanNote)
  (⟨200, .notesList cleaned⟩, s)

/-- POST: validate, store the new note, prepend its id to the index
(removing any prior occurrence) truncated to the cap, and answer with
the sanitized note plus the raw token. `now`, `freshId` and `newToken`
stand for the clock and the random generators. -/
def handleCreate (b : Body) (s : Store) (now : Nat) (freshId newToken : String) :
    Resp × Store :=
  let content := jsTrim (b.content.getD "")
  let imageDataUrl := normImage b.imageDataUrl
  if content = "" ∧ imageDataUrl = none then
    (⟨400, .errorMsg "Empty note."⟩, s)
  else if content.length > MAX_CONTENT_CHARS then
    (⟨400, .errorMsg ("Note is too long (max " ++ toString MAX_CONTENT_CHARS ++ " chars).")⟩, s)
  else if imageTooLarge imageDataUrl then
    (⟨400, .errorMsg "Image is too large. Please upload a smaller image."⟩, s)
  else
    let note : Note :=
      { id := freshId, content := content, imageDataUrl := imageDataUrl,
        createdAt := now, updatedAt := now, editToken := newToken }
    let s1 := setNote s freshId note
    let indexArray := readIndexArray s1
    let newIndex := (freshId :: indexArray.filter (fun x => x ≠ freshId)).take MAX_NOTES
    let s2 := setIndex s1 newIndex
    (⟨200, .created (cleanNote note) newToken⟩, s2)

/-- PUT: require id and token, 404 on a missing record, 403 on a token
mismatch, then re-validate and replace content/image with a fresh
updatedAt, keeping every other field of the stored record. -/
def handleUpdate (b : Body) (s : Store) (now : Nat) : Resp × Store :=
  let id := b.id.getD ""
  let token := b.token.getD ""
  if id = "" ∨ token = "" then
    (⟨400, .errorMsg "Missing id/token."⟩, s)
  else
    match lookupNote s id with
    | none => (⟨404, .errorMsg "Note not found."⟩, s)
    | some existing =>
      if existing.editToken ≠ token then
        (⟨403, .errorMsg "Forbidden."⟩, s)
      else
        let content := jsTrim (b.content.getD "")
        let imageDataUrl := normImage b.imageDataUrl
        if content = "" ∧ imageDataUrl = none then
          (⟨400, .errorMsg "Empty note."⟩, s)
        else if content.length > MAX_CONTENT_CHARS then
          (⟨400, .errorMsg ("Note is too long (max " ++ toString MAX_CONTENT_CHARS ++ " chars).")⟩, s)
        else if imageTooLarge imageDataUrl then
          (⟨400, .errorMsg "Image is too large. Please upload a smaller image."⟩, s)
        else
          let updated : Note :=
            { existing with content := content, imageDataUrl := imageDataUrl, updatedAt := now }
          (⟨200, .updatedNote (cleanNote updated)⟩, setNote s id updated)

/-- DELETE: require id and token; a missing record succeeds idempotently
with no store write; a token mismatch is 403; otherwise remove the
record and filter the id out of the index. -/
def handleDelete (b : Body) (s : Store) : Resp × Store :=
  let id := b.id.getD ""
  let token := b.token.getD ""
  if id = "" ∨ token = "" then
    (⟨400, .errorMsg "Missing id/token."⟩, s)
  else
    match lookupNote s id with
    | none => (⟨200, .deletedOk⟩, s)
    | some existing =>
      if existing.editToken ≠ token then
        (⟨403, .errorMsg "Forbidden."⟩, s)
      else
        let s1 := delNote s id
        let indexArray := readIndexArray s1
        let s2 := setIndex s1 (indexArray.filter (fun x => x ≠ id))
        (⟨200, .deletedOk⟩, s2)

/-- The notes endpoint handler: dispatch on the HTTP method exactly as
the source's if-chain does (OPTIONS, GET, POST, PUT, DELETE, 405). -/
def handler (req : Request) (s : Store) (now : Nat) (freshId newToken : String) :
    Resp × Store :=
  match req.method with
  | .OPTIONS => (⟨204, .empty⟩, s)
  | .GET => handleGet s
  | .POST => handleCreate (readJson req.rawBody) s now freshId newToken
  | .PUT => handleUpdate (readJson req.rawBody) s now
  | .DELETE => handleDelete (readJson req.rawBody) s
  | .OTHER => (⟨405, .errorMsg "Method not allowed."⟩, s)

/-- A create request together with the ambient inputs (clock, fresh id,
fresh token) of its handling. -/
structure CreateReq where
  rawBody : Option Body
  now : Nat
  freshId : String
  newToken : String
deriving DecidableEq

/-- The store after handling one POST request. -/
def applyCreate (c : CreateReq) (s : Store) : Store :=
  (handler ⟨.POST, c.rawBody⟩ s c.now c.freshId c.newToken).2

/-- The store after handling a sequence of POST requests. -/
def applyCreates (cs : List CreateReq) (s : Store) : Store :=
  cs.foldl (fun s c => applyCreate c s) s

/-- The recency-index invariant: no duplicate ids and at most the cap. -/
def indexOk (s : Store) : Prop :=
  (readIndexArray s).Nodup ∧ (readIndexArray s).length ≤ MAX_NOTES

instance (s : Store) : Decidable (indexOk s) := by
  unfold indexOk
  infer_instance

/-- The three validation failures shared by create and update: empty
note, content over the length bound, image over the size bound. -/
def validationFails (content : String) (img : Option String) : Prop :=
  (content = "" ∧ img = none) ∨
  content.length > MAX_CONTENT_CHARS ∨
  imageTooLarge img = true

instance (content : String) (img : Option String) :
    Decidable (validationFails content img) := by
  unfold validationFails
  infer_instance

/-- An index record that is absent or holds a non-array JSON value. -/
def badIndex (s : Store) : Prop :=
  s.index = none ∨ s.index = some .nonArr

instance (s : Store) : Decidable (badIndex s) := by
  unfold badIndex
  infer_instance

/-- Client side: a JSON value as the client sees it after parsing, with
only array-ness observed (the sync layer checks nothing finer). -/
inductive JData where
  | arr (notes : List JObj)
  | nonArr
deriving DecidableEq

/-- Outcome of one network round trip from the client: a parsed 2xx
response body, or a failure (network error, timeout, or a non-2xx
status, all of which the request helper raises alike). -/
inductive FetchResult where
  | ok (data : JData)
  | fail
deriving DecidableEq

/-- The client-local persistent state the list fetch touches: the cache
cell, absent (or unparseable, which the loader treats alike) or holding
a previously saved JSON value. -/
structure ClientState where
  cache : Option JData
deriving DecidableEq

/-- The client's getAllNotes: on a successful fetch of an array,
overwrite the cache and return it; on a success that is not an array,
return the empty list; on failure, return the cached list when the
cache holds an array and the empty list otherwise. The function is
total: the source catches every failure, so nothing escapes to the
caller. -/
def getAllNotes (net : FetchResult) (st : ClientState) : List JObj × ClientState :=
  match net with
  | .ok (.arr notes) => (notes, { st with cache := some (.arr notes) })
  | .ok .nonArr => ([], st)
  | .fail =>
    match st.cache with
    | some (.arr cached) => (cached, st)
    | _ => ([], st)

example :
    (handler ⟨.POST, some ⟨some " hi ", none, none, none⟩⟩ ⟨[], none⟩ 7 "id1" "tok1").1 =
      ⟨200, .created
        [("id", .str "id1"), ("content", .str "hi"), ("imageDataUrl", .null),
         ("createdAt", .num 7), ("updatedAt", .num 7)] "tok1"⟩ := by
  decide

example :
    (handler ⟨.POST, some ⟨some " hi ", none, none, none⟩⟩ ⟨[], none⟩ 7 "id1" "tok1").2 =
      ⟨[("id1", ⟨"id1", "hi", none, 7, 7, "tok1"⟩)], some (.arr ["id1"])⟩ := by
  decide

/-! Helper lemmas shared by the claim theorems. -/

lemma jsTrim_empty : jsTrim "" = "" := by decide

lemma cleanNote_no_editToken (n : Note) : ∀ kv ∈ cleanNote n, kv.1 ≠ "editToken" := by
  intro kv hkv
  unfold cleanNote at hkv
  rw [List.mem_filter] at hkv
  simpa using hkv.2

lemma readIndexArray_setNote (s : Store) (id : String) (n : Note) :
    readIndexArray (setNote s id n) = readIndexArray s := rfl

lemma readIndexArray_setIndex (s : Store) (l : List String) :
    readIndexArray (setIndex s l) = l := rfl

lemma readIndexArray_of_badIndex (s : Store) (h : badIndex s) :
    readIndexArray s = [] := by
  rcases h with h | h <;> simp [readIndexArray, h]

lemma find?_insertRec (l : List (String × Note)) (id : String) (n : Note) :
    (insertRec l id n).find? (fun kv => kv.1 == id) = some (id, n) := by
  induction l with
  | nil => simp [insertRec]
  | cons kv rest ih =>
    by_cases h : kv.1 = id
    · simp [insertRec, h]
    · simp [insertRec, h, List.find?_cons_of_neg, ih]

lemma lookupNote_setNote_self (s : Store) (id : String) (n : Note) :
    lookupNote (setNote s id n) id = some n := by
  simp [lookupNote, setNote, find?_insertRec]

lemma head?_take (n : Nat) (l : List α) :
    (l.take n).head? = if n = 0 then none else l.head? := by
  cases n <;> cases l <;> simp [List.take]

/-- Every outcome of handleCreate: a validation error with the store
untouched, or the success write of the note record and the new index. -/
lemma handleCreate_resp (b : Body) (s : Store) (now : Nat) (fid tok : String) :
    (∃ msg, handleCreate b s now fid tok = (⟨400, .errorMsg msg⟩, s)) ∨
    (¬ validationFails (jsTrim (b.content.getD "")) (normImage b.imageDataUrl) ∧
      handleCreate b s now fid tok =
        (⟨200, .created (cleanNote
            ⟨fid, jsTrim (b.content.getD ""), normImage b.imageDataUrl, now, now, tok⟩) tok⟩,
          setIndex (setNote s fid
              ⟨fid, jsTrim (b.content.getD ""), normImage b.imageDataUrl, now, now, tok⟩)
            ((fid :: (readIndexArray s).filter (fun x => x ≠ fid)).take MAX_NOTES))) := by
  by_cases h1 : jsTrim (b.content.getD "") = "" ∧ normImage b.imageDataUrl = none
  · exact Or.inl ⟨"Empty note.", by simp [handleCreate, h1]⟩
  · by_cases h2 : (jsTrim (b.content.getD "")).length > MAX_CONTENT_CHARS
    · exact Or.inl ⟨"Note is too long (max " ++ toString MAX_CONTENT_CHARS ++ " chars).",
        by simp [handleCreate, h1, h2]⟩
    · by_cases h3 : imageTooLarge (normImage b.imageDataUrl) = true
      · exact Or.inl ⟨"Image is too large. Please upload a smaller image.",
          by simp [handleCreate, h1, h2, h3]⟩
      · refine Or.inr ⟨by simp [validationFails, h1, h2, h3], ?_⟩
        simp [handleCreate, h1, h2, h3, readIndexArray_setNote]

lemma handleUpdate_missing (b : Body) (s : Store) (now : Nat)
    (h : b.id.getD "" = "" ∨ b.token.getD "" = "") :
    handleUpdate b s now = (⟨400, .errorMsg "Missing id/token."⟩, s) := by
  simp [handleUpdate, h]

lemma handleUpdate_notFound (b : Body) (s : Store) (now : Nat)
    (hid : b.id.getD "" ≠ "") (htok : b.token.getD "" ≠ "")
    (hlook : lookupNote s (b.id.getD "") = none) :
    handleUpdate b s now = (⟨404, .errorMsg "Note not found."⟩, s) := by
  simp [handleUpdate, hid, htok, hlook]

lemma handleUpdate_forbidden (b : Body) (s : Store) (now : Nat) (note : Note)
    (hid : b.id.getD "" ≠ "") (htok : b.token.getD "" ≠ "")
    (hlook : lookupNote s (b.id.getD "") = some note)
    (hne : note.editToken ≠ b.token.getD "") :
    handleUpdate b s now = (⟨403, .errorMsg "Forbidden."⟩, s) := by
  simp [handleUpdate, hid, htok, hlook, hne]

lemma handleUpdate_success (b : Body) (s : Store) (now : Nat) (note : Note)
    (hid : b.id.getD "" ≠ "") (htok : b.token.getD "" ≠ "")
    (hlook : lookupNote s (b.id.getD "") = some note)
    (htokeq : note.editToken = b.token.getD "")
    (hvalid : ¬ validationFails (jsTrim (b.content.getD "")) (normImage b.imageDataUrl)) :
    handleUpdate b s now =
      (⟨200, .updatedNote (cleanNote { note with
          content := jsTrim (b.content.getD ""),
          imageDataUrl := normImage b.imageDataUrl, updatedAt := now })⟩,
        setNote s (b.id.getD "") { note with
          content := jsTrim (b.content.getD ""),
          imageDataUrl := normImage b.imageDataUrl, updatedAt := now }) := by
  obtain ⟨h1, h2, h3⟩ : ¬ (jsTrim (b.content.getD "") = "" ∧ normImage b.imageDataUrl = none) ∧
      ¬ ((jsTrim (b.content.getD "")).length > MAX_CONTENT_CHARS) ∧
      ¬ (imageTooLarge (normImage b.imageDataUrl) = true) := by
    simpa [validationFails, not_or] using hvalid
  simp [handleUpdate, hid, htok, hlook, htokeq, h1, h2, h3]

lemma handleUpdate_invalid (b : Body) (s : Store) (now : Nat) (note : Note)
    (hlook : lookupNote s (b.id.getD "") = some note)
    (htokeq : note.editToken = b.token.getD "")
    (hfail : validationFails (jsTrim (b.content.getD "")) (normImage b.imageDataUrl)) :
    ∃ msg, handleUpdate b s now = (⟨400, .errorMsg msg⟩, s) := by
  by_cases hm : b.id.getD "" = "" ∨ b.token.getD "" = ""
  · exact ⟨"Missing id/token.", handleUpdate_missing b s now hm⟩
  · push_neg at hm
    rcases hfail with h | h | h
    · exact ⟨"Empty note.", by simp [handleUpdate, hm.1, hm.2, hlook, htokeq, h]⟩
    · by_cases h1 : jsTrim (b.content.getD "") = "" ∧ normImage b.imageDataUrl = none
      · exact ⟨"Empty note.", by simp [handleUpdate, hm.1, hm.2, hlook, htokeq, h1]⟩
      · exact ⟨"Note is too long (max " ++ toString MAX_CONTENT_CHARS ++ " chars).",
          by simp [handleUpdate, hm.1, hm.2, hlook, htokeq, h1, h]⟩
    · by_cases h1 : jsTrim (b.content.getD "") = "" ∧ normImage b.imageDataUrl = none
      · exact ⟨"Empty note.", by simp [handleUpdate, hm.1, hm.2, hlook, htokeq, h1]⟩
      · by_cases h2 : (jsTrim (b.content.getD "")).length > MAX_CONTENT_CHARS
        · exact ⟨"Note is too long (max " ++ toString MAX_CONTENT_CHARS ++ " chars).",
            by simp [handleUpdate, hm.1, hm.2, hlook, htokeq, h1, h2]⟩
        · exact ⟨"Image is too large. Please upload a smaller image.",
            by simp [handleUpdate, hm.1, hm.2, hlook, htokeq, h1, h2, h]⟩

/-- Every outcome of handleUpdate: an error response with the store
untouched, or the success write of the updated note. -/
lemma handleUpdate_resp (b : Body) (s : Store) (now : Nat) :
    (∃ st msg, handleUpdate b s now = (⟨st, .errorMsg msg⟩, s) ∧ st ≠ 200) ∨
    (∃ note, lookupNote s (b.id.getD "") = some note ∧
      handleUpdate b s now =
        (⟨200, .updatedNote (cleanNote { note with
            content := jsTrim (b.content.getD ""),
            imageDataUrl := normImage b.imageDataUrl, updatedAt := now })⟩,
          setNote s (b.id.getD "") { note with
            content := jsTrim (b.content.getD ""),
            imageDataUrl := normImage b.imageDataUrl, updatedAt := now })) := by
  by_cases hm : b.id.getD "" = "" ∨ b.token.getD "" = ""
  · exact Or.inl ⟨400, _, handleUpdate_missing b s now hm, by decide⟩
  · push_neg at hm
    cases hlook : lookupNote s (b.id.getD "") with
    | none => exact Or.inl ⟨404, _, handleUpdate_notFound b s now hm.1 hm.2 hlook, by decide⟩
    | some note =>
      by_cases htok : note.editToken = b.token.getD ""
      · by_cases hval : validationFails (jsTrim (b.content.getD "")) (normImage b.imageDataUrl)
        · obtain ⟨msg, hEq⟩ := handleUpdate_invalid b s now note hlook htok hval
          exact Or.inl ⟨400, msg, hEq, by decide⟩
        · exact Or.inr ⟨note, rfl, handleUpdate_success b s now note hm.1 hm.2 hlook htok hval⟩
      · exact Or.inl ⟨403, _, handleUpdate_forbidden b s now note hm.1 hm.2 hlook htok, by decide⟩

lemma handleDelete_missing (b : Body) (s : Store)
    (h : b.id.getD "" = "" ∨ b.token.getD "" = "") :
    handleDelete b s = (⟨400, .errorMsg "Missing id/token."⟩, s) := by
  simp [handleDelete, h]

lemma handleDelete_absent (b : Body) (s : Store)
    (hid : b.id.getD "" ≠ "") (htok : b.token.getD "" ≠ "")
    (hlook : lookupNote s (b.id.getD "") = none) :
    handleDelete b s = (⟨200, .deletedOk⟩, s) := by
  simp [handleDelete, hid, htok, hlook]

lemma handleDelete_forbidden (b : Body) (s : Store) (note : Note)
    (hid : b.id.getD "" ≠ "") (htok : b.token.getD "" ≠ "")
    (hlook : lookupNote s (b.id.getD "") = some note)
    (hne : note.editToken ≠ b.token.getD "") :
    handleDelete b s = (⟨403, .errorMsg "Forbidden."⟩, s) := by
  simp [handleDelete, hid, htok, hlook, hne]

lemma handleDelete_success (b : Body) (s : Store) (note : Note)
    (hid : b.id.getD "" ≠ "") (htok : b.token.getD "" ≠ "")
    (hlook : lookupNote s (b.id.getD "") = some note)
    (htokeq : note.editToken = b.token.getD "") :
    handleDelete b s =
      (⟨200, .deletedOk⟩,
        setIndex (delNote s (b.id.getD ""))
          ((readIndexArray s).filter (fun x => x ≠ b.id.getD ""))) := by
  simp [handleDelete, hid, htok, hlook, htokeq, delNote, readIndexArray]

lemma newIndex_nodup (l : List String) (fid : String) (h : l.Nodup) :
    ((fid :: l.filter (fun x => x ≠ fid)).take MAX_NOTES).Nodup := by
  refine List.Nodup.sublist (List.take_sublist _ _) ?_
  refine List.nodup_cons.mpr ⟨?_, h.filter _⟩
  simp

lemma newIndex_length (l : List String) (fid : String) :
    ((fid :: l.filter (fun x => x ≠ fid)).take MAX_NOTES).length ≤ MAX_NOTES := by
  simp [List.length_take]

lemma newIndex_head (l : List String) (fid : String) :
    ((fid :: l.filter (fun x => x ≠ fid)).take MAX_NOTES).head? = some fid := by
  rw [head?_take]
  simp [MAX_NOTES]

lemma applyCreate_indexOk (c : CreateReq) (s : Store) (h : indexOk s) :
    indexOk (applyCreate c s) ∧
    ((handler ⟨.POST, c.rawBody⟩ s c.now c.freshId c.newToken).1.status = 200 →
      (readIndexArray (applyCreate c s)).head? = some c.freshId) := by
  rcases handleCreate_resp (readJson c.rawBody) s c.now c.freshId c.newToken with
    ⟨msg, hEq⟩ | ⟨-, hEq⟩
  · have h2 : applyCreate c s = s := by simp [applyCreate, handler, hEq]
    have h3 : (handler ⟨.POST, c.rawBody⟩ s c.now c.freshId c.newToken).1.status = 400 := by
      simp [handler, hEq]
    rw [h2, h3]
    exact ⟨h, by intro hc; cases hc⟩
  · have h2 : applyCreate c s =
        setIndex (setNote s c.freshId
            ⟨c.freshId, jsTrim ((readJson c.rawBody).content.getD ""),
              normImage (readJson c.rawBody).imageDataUrl, c.now, c.now, c.newToken⟩)
          ((c.freshId :: (readIndexArray s).filter (fun x => x ≠ c.freshId)).take MAX_NOTES) := by
      simp [applyCreate, handler, hEq]
    rw [h2]
    refine ⟨⟨?_, ?_⟩, ?_⟩
    · rw [readIndexArray_setIndex]
      exact newIndex_nodup _ _ h.1
    · rw [readIndexArray_setIndex]
      exact newIndex_length _ _
    · intro _
      rw [readIndexArray_setIndex]
      exact newIndex_head _ _

lemma handleDelete_noteObjs (b : Body) (s : Store) :
    (handleDelete b s).1.body.noteObjs = [] := by
  simp only [handleDelete]
  split
  · rfl
  · split
    · rfl
    · split
      · rfl
      · rfl

lemma applyCreates_indexOk (cs : List CreateReq) :
    ∀ s : Store, indexOk s → indexOk (applyCreates cs s) := by
  induction cs with
  | nil => intro s h; simpa [applyCreates] using h
  | cons c rest ih =>
    intro s h
    have hstep := (applyCreate_indexOk c s h).1
    simpa [applyCreates] using ih (applyCreate c s) hstep

/-! The claims. -/

/-- C1: for every request, the response of the handler never serializes
the editToken field inside any note object (the GET list, the note view
of a POST, and the note view of a PUT), and on a successful create the
raw token is returned in the separate top-level token field. -/
theorem c1_no_editToken_in_responses
    (req : Request) (s : Store) (now : Nat) (freshId newToken : String) :
    (∀ o ∈ ((handler req s now freshId newToken).1.body.noteObjs), ∀ kv ∈ o, kv.1 ≠ "editToken") ∧
    (req.method = .POST → (handler req s now freshId newToken).1.status = 200 →
      (handler req s now freshId newToken).1.body.tokenField = some newToken) := by
  rcases req with ⟨m, rb⟩
  cases m
  case GET =>
    refine ⟨?_, fun h => Method.noConfusion h⟩
    intro o ho kv hkv
    simp only [handler, handleGet, RespBody.noteObjs, List.mem_filterMap,
      Option.map_eq_some'] at ho
    obtain ⟨id, -, n, -, rfl⟩ := ho
    exact cleanNote_no_editToken n kv hkv
  case POST =>
    rcases handleCreate_resp (readJson rb) s now freshId newToken with ⟨msg, hEq⟩ | ⟨-, hEq⟩
    · constructor
      · intro o ho
        simp [handler, hEq, RespBody.noteObjs] at ho
      · intro _ hst
        simp [handler, hEq] at hst
    · constructor
      · intro o ho
        simp only [handler, hEq, RespBody.noteObjs, List.mem_singleton] at ho
        subst ho
        exact cleanNote_no_editToken _
      · intro _ _
        simp [handler, hEq, RespBody.tokenField]
  case PUT =>
    rcases handleUpdate_resp (readJson rb) s now with ⟨st, msg, hEq, -⟩ | ⟨note, -, hEq⟩
    · constructor
      · intro o ho
        simp [handler, hEq, RespBody.noteObjs] at ho
      · intro h
        exact Method.noConfusion h
    · constructor
      · intro o ho
        simp only [handler, hEq, RespBody.noteObjs, List.mem_singleton] at ho
        subst ho
        exact cleanNote_no_editToken _
      · intro h
        exact Method.noConfusion h
  case DELETE =>
    refine ⟨?_, fun h => Method.noConfusion h⟩
    intro o ho
    rw [show (handler ⟨.DELETE, rb⟩ s now freshId newToken).1.body.noteObjs =
      (handleDelete (readJson rb) s).1.body.noteObjs from rfl, handleDelete_noteObjs] at ho
    cases ho
  case OPTIONS =>
    exact ⟨fun o ho => (by cases ho), fun h => Method.noConfusion h⟩
  case OTHER =>
    exact ⟨fun o ho => (by cases ho), fun h => Method.noConfusion h⟩

theorem c1_witness :
    (handler ⟨.POST, some ⟨some "hi", none, none, none⟩⟩ ⟨[], none⟩ 1 "id1" "tok1").1.body.tokenField =
      some "tok1" :=
  (c1_no_editToken_in_responses ⟨.POST, some ⟨some "hi", none, none, none⟩⟩ ⟨[], none⟩
    1 "id1" "tok1").2 rfl (by decide)

/-- C2 counterexample: the empty string is an id for which no note
record exists, yet a DELETE request naming it with a non-empty token is
answered with a 400 error (the missing-id branch), not an ok response. -/
theorem c2_counterexample :
    lookupNote ⟨[], none⟩ "" = none ∧
    (handler ⟨.DELETE, some ⟨none, none, some "", some "t"⟩⟩ ⟨[], none⟩ 0 "f" "g").1 =
      ⟨400, .errorMsg "Missing id/token."⟩ := by
  decide

/-- C2 amended: for every non-empty id for which no note record exists
and every non-empty token, a DELETE request with that id and token
returns 200 ok with the store unchanged. -/
theorem c2_delete_missing_note_is_ok
    (s : Store) (b : Body) (now : Nat) (fid tok : String)
    (hid : b.id.getD "" ≠ "") (htok : b.token.getD "" ≠ "")
    (hmiss : lookupNote s (b.id.getD "") = none) :
    handler ⟨.DELETE, some b⟩ s now fid tok = (⟨200, .deletedOk⟩, s) :=
  handleDelete_absent b s hid htok hmiss

theorem c2_witness :
    handler ⟨.DELETE, some ⟨none, none, some "n1", some "t"⟩⟩ ⟨[], none⟩ 0 "f" "g" =
      (⟨200, .deletedOk⟩, ⟨[], none⟩) :=
  c2_delete_missing_note_is_ok ⟨[], none⟩ ⟨none, none, some "n1", some "t"⟩ 0 "f" "g"
    (by decide) (by decide) (by decide)

/-- C3 counterexample: with a stored note whose editToken is "secret",
a PUT naming that note with the (differing) empty token is answered
400 from the missing-token branch, not 403. -/
theorem c3_counterexample :
    lookupNote ⟨[("n1", ⟨"n1", "hi", none, 0, 0, "secret"⟩)], none⟩ "n1" =
      some ⟨"n1", "hi", none, 0, 0, "secret"⟩ ∧
    "" ≠ "secret" ∧
    (handler ⟨.PUT, some ⟨some "x", none, some "n1", some ""⟩⟩
      ⟨[("n1", ⟨"n1", "hi", none, 0, 0, "secret"⟩)], none⟩ 1 "f" "g").1 =
      ⟨400, .errorMsg "Missing id/token."⟩ := by
  decide

/-- C3 amended: for every stored note reachable by a non-empty id and
every non-empty token that differs from the stored editToken, the PUT
returns 403 Forbidden and the store is unchanged, regardless of the
content and imageDataUrl supplied. -/
theorem c3_wrong_token_put_forbidden
    (s : Store) (b : Body) (now : Nat) (fid tok : String) (note : Note)
    (hid : b.id.getD "" ≠ "") (htok : b.token.getD "" ≠ "")
    (hlook : lookupNote s (b.id.getD "") = some note)
    (hne : note.editToken ≠ b.token.getD "") :
    handler ⟨.PUT, some b⟩ s now fid tok = (⟨403, .errorMsg "Forbidden."⟩, s) :=
  handleUpdate_forbidden b s now note hid htok hlook hne

theorem c3_witness :
    handler ⟨.PUT, some ⟨some "x", none, some "n1", some "wrong"⟩⟩
      ⟨[("n1", ⟨"n1", "hi", none, 0, 0, "secret"⟩)], none⟩ 1 "f" "g" =
      (⟨403, .errorMsg "Forbidden."⟩, ⟨[("n1", ⟨"n1", "hi", none, 0, 0, "secret"⟩)], none⟩) :=
  c3_wrong_token_put_forbidden ⟨[("n1", ⟨"n1", "hi", none, 0, 0, "secret"⟩)], none⟩
    ⟨some "x", none, some "n1", some "wrong"⟩ 1 "f" "g" ⟨"n1", "hi", none, 0, 0, "secret"⟩
    (by decide) (by decide) (by decide) (by decide)

/-- C4 counterexample: an update handled in the same millisecond as the
note's creation succeeds (status 200) and leaves updatedAt equal to
createdAt, so updatedAt is not strictly greater than createdAt. -/
theorem c4_counterexample :
    (handler ⟨.PUT, some ⟨some "x", none, some "n1", some "t"⟩⟩
      ⟨[("n1", ⟨"n1", "hi", none, 5, 5, "t"⟩)], none⟩ 5 "f" "g").1.status = 200 ∧
    lookupNote (handler ⟨.PUT, some ⟨some "x", none, some "n1", some "t"⟩⟩
      ⟨[("n1", ⟨"n1", "hi", none, 5, 5, "t"⟩)], none⟩ 5 "f" "g").2 "n1" =
      some ⟨"n1", "x", none, 5, 5, "t"⟩ ∧
    ¬ (⟨"n1", "x", none, 5, 5, "t"⟩ : Note).updatedAt > (⟨"n1", "x", none, 5, 5, "t"⟩ : Note).createdAt := by
  decide

/-- C4 amended: a successful update sets the stored note's updatedAt to
the handling time, so updatedAt is strictly greater than createdAt
whenever the update is handled strictly after the creation millisecond
(and equal to it when handled in the same millisecond). -/
theorem c4_update_refreshes_updatedAt
    (s : Store) (b : Body) (now : Nat) (fid tok : String) (note : Note)
    (hid : b.id.getD "" ≠ "") (htok : b.token.getD "" ≠ "")
    (hlook : lookupNote s (b.id.getD "") = some note)
    (htokeq : note.editToken = b.token.getD "")
    (hvalid : ¬ validationFails (jsTrim (b.content.getD "")) (normImage b.imageDataUrl))
    (hnow : note.createdAt < now) :
    ∃ n', lookupNote (handler ⟨.PUT, some b⟩ s now fid tok).2 (b.id.getD "") = some n' ∧
      n'.createdAt = note.createdAt ∧ n'.updatedAt = now ∧ n'.updatedAt > n'.createdAt := by
  have hEq := handleUpdate_success b s now note hid htok hlook htokeq hvalid
  refine ⟨⟨note.id, jsTrim (b.content.getD ""), normImage b.imageDataUrl,
    note.createdAt, now, note.editToken⟩, ?_, rfl, rfl, hnow⟩
  show lookupNote (handleUpdate b s now).2 (b.id.getD "") = _
  rw [hEq]
  exact lookupNote_setNote_self s (b.id.getD "") _

theorem c4_witness :
    ∃ n', lookupNote (handler ⟨.PUT, some ⟨some "x", none, some "n1", some "t"⟩⟩
        ⟨[("n1", ⟨"n1", "hi", none, 5, 5, "t"⟩)], none⟩ 9 "f" "g").2 "n1" = some n' ∧
      n'.createdAt = 5 ∧ n'.updatedAt = 9 ∧ n'.updatedAt > n'.createdAt :=
  c4_update_refreshes_updatedAt ⟨[("n1", ⟨"n1", "hi", none, 5, 5, "t"⟩)], none⟩
    ⟨some "x", none, some "n1", some "t"⟩ 9 "f" "g" ⟨"n1", "hi", none, 5, 5, "t"⟩
    (by decide) (by decide) (by decide) (by decide) (by decide) (by decide)

/-- C5: from a store whose index satisfies the invariant (no duplicate
ids, length at most the cap) every create preserves the invariant, a
successful create puts the fresh id at the front (so an id already
present is moved to the front, never duplicated, by nodup), and the
invariant holds after any sequence of creates. -/
theorem c5_index_invariant :
    (∀ (c : CreateReq) (s : Store), indexOk s →
      indexOk (applyCreate c s) ∧
      ((handler ⟨.POST, c.rawBody⟩ s c.now c.freshId c.newToken).1.status = 200 →
        (readIndexArray (applyCreate c s)).head? = some c.freshId)) ∧
    (∀ (cs : List CreateReq) (s : Store), indexOk s → indexOk (applyCreates cs s)) :=
  ⟨applyCreate_indexOk, applyCreates_indexOk⟩

theorem c5_witness :
    indexOk (applyCreates [⟨some ⟨some "hi", none, none, none⟩, 1, "id1", "t1"⟩] ⟨[], none⟩) :=
  c5_index_invariant.2 [⟨some ⟨some "hi", none, none, none⟩, 1, "id1", "t1"⟩] ⟨[], none⟩
    (by decide)

/-- C6: a POST whose body is not parseable as JSON is handled as if the
body were an empty object and flows through the normal validation,
ending in the 400 empty-note response with the store unchanged. -/
theorem c6_unparseable_post_body_is_empty_note_400
    (s : Store) (now : Nat) (fid tok : String) :
    handler ⟨.POST, none⟩ s now fid tok = (⟨400, .errorMsg "Empty note."⟩, s) := by
  show handleCreate emptyBody s now fid tok = _
  simp [handleCreate, emptyBody, normImage, jsTrim_empty]

/-- C7: after a getAllNotes call that succeeded and cached an array, a
subsequent call whose network request fails returns exactly the cached
array with the client state untouched; with no cached value it returns
the empty list. getAllNotes being a total function models that no
failure escapes to the caller. -/
theorem c7_getAllNotes_falls_back_to_cache (st : ClientState) (l : List JObj) :
    (getAllNotes .fail ((getAllNotes (.ok (.arr l)) st).2) =
      (l, (getAllNotes (.ok (.arr l)) st).2)) ∧
    (∀ st2 : ClientState, st2.cache = none → getAllNotes .fail st2 = ([], st2)) := by
  constructor
  · simp [getAllNotes]
  · intro st2 h
    simp [getAllNotes, h]

theorem c7_witness :
    getAllNotes .fail (⟨none⟩ : ClientState) = ([], (⟨none⟩ : ClientState)) :=
  (c7_getAllNotes_falls_back_to_cache ⟨none⟩ []).2 ⟨none⟩ rfl

/-- C8: a successful update stores a note whose id, createdAt and
editToken equal the previous values, with only content, imageDataUrl
and updatedAt replaced. -/
theorem c8_update_preserves_identity_fields
    (s : Store) (b : Body) (now : Nat) (fid tok : String) (note : Note)
    (hid : b.id.getD "" ≠ "") (htok : b.token.getD "" ≠ "")
    (hlook : lookupNote s (b.id.getD "") = some note)
    (htokeq : note.editToken = b.token.getD "")
    (hvalid : ¬ validationFails (jsTrim (b.content.getD "")) (normImage b.imageDataUrl)) :
    (handler ⟨.PUT, some b⟩ s now fid tok).1.status = 200 ∧
    lookupNote (handler ⟨.PUT, some b⟩ s now fid tok).2 (b.id.getD "") =
      some ⟨note.id, jsTrim (b.content.getD ""), normImage b.imageDataUrl,
        note.createdAt, now, note.editToken⟩ := by
  have hEq := handleUpdate_success b s now note hid htok hlook htokeq hvalid
  constructor
  · show (handleUpdate b s now).1.status = 200
    rw [hEq]
  · show lookupNote (handleUpdate b s now).2 (b.id.getD "") = _
    rw [hEq]
    exact lookupNote_setNote_self s (b.id.getD "") _

theorem c8_witness :
    (handler ⟨.PUT, some ⟨some "new", none, some "n1", some "t"⟩⟩
      ⟨[("n1", ⟨"n1", "old", none, 3, 3, "t"⟩)], none⟩ 8 "f" "g").1.status = 200 ∧
    lookupNote (handler ⟨.PUT, some ⟨some "new", none, some "n1", some "t"⟩⟩
      ⟨[("n1", ⟨"n1", "old", none, 3, 3, "t"⟩)], none⟩ 8 "f" "g").2 "n1" =
      some ⟨"n1", "new", none, 3, 8, "t"⟩ := by
  have h := c8_update_preserves_identity_fields
    ⟨[("n1", ⟨"n1", "old", none, 3, 3, "t"⟩)], none⟩ ⟨some "new", none, some "n1", some "t"⟩
    8 "f" "g" ⟨"n1", "old", none, 3, 3, "t"⟩
    (by decide) (by decide) (by decide) (by decide) (by decide)
  exact ⟨h.1, h.2⟩

/-- C9: a PUT naming an existing note with the correct token whose new
content and image fail validation returns 400 and performs no store
write: notes and index are both unchanged. -/
theorem c9_invalid_update_writes_nothing
    (s : Store) (b : Body) (now : Nat) (fid tok : String) (note : Note)
    (hlook : lookupNote s (b.id.getD "") = some note)
    (htokeq : note.editToken = b.token.getD "")
    (hfail : validationFails (jsTrim (b.content.getD "")) (normImage b.imageDataUrl)) :
    (handler ⟨.PUT, some b⟩ s now fid tok).1.status = 400 ∧
    (handler ⟨.PUT, some b⟩ s now fid tok).2 = s := by
  obtain ⟨msg, hEq⟩ := handleUpdate_invalid b s now note hlook htokeq hfail
  constructor
  · show (handleUpdate b s now).1.status = 400
    rw [hEq]
  · show (handleUpdate b s now).2 = s
    rw [hEq]

theorem c9_witness :
    (handler ⟨.PUT, some ⟨some " ", none, some "n1", some "t"⟩⟩
      ⟨[("n1", ⟨"n1", "old", none, 3, 3, "t"⟩)], none⟩ 8 "f" "g").1.status = 400 ∧
    (handler ⟨.PUT, some ⟨some " ", none, some "n1", some "t"⟩⟩
      ⟨[("n1", ⟨"n1", "old", none, 3, 3, "t"⟩)], none⟩ 8 "f" "g").2 =
      ⟨[("n1", ⟨"n1", "old", none, 3, 3, "t"⟩)], none⟩ :=
  c9_invalid_update_writes_nothing ⟨[("n1", ⟨"n1", "old", none, 3, 3, "t"⟩)], none⟩
    ⟨some " ", none, some "n1", some "t"⟩ 8 "f" "g" ⟨"n1", "old", none, 3, 3, "t"⟩
    (by decide) (by decide) (by decide)

/-- C10: when the index record is absent or holds a non-array JSON
value, no handler fails: GET answers 200 with the empty list, a
successful POST overwrites the index with the well-formed singleton
array of the fresh id, and a successful DELETE of an existing note
overwrites it with the well-formed empty array (failed requests do not
reach the index write, as in the source). -/
theorem c10_bad_index_treated_as_empty
    (s : Store) (b : Body) (now : Nat) (fid tok : String) (hbad : badIndex s) :
    handleGet s = (⟨200, .notesList []⟩, s) ∧
    ((handler ⟨.POST, some b⟩ s now fid tok).1.status = 200 →
      (handler ⟨.POST, some b⟩ s now fid tok).2.index = some (.arr [fid])) ∧
    ((handler ⟨.DELETE, some b⟩ s now fid tok).1.status = 200 →
      lookupNote s (b.id.getD "") ≠ none →
      (handler ⟨.DELETE, some b⟩ s now fid tok).2.index = some (.arr [])) := by
  have hempty := readIndexArray_of_badIndex s hbad
  refine ⟨?_, ?_, ?_⟩
  · simp [handleGet, hempty]
  · intro hst
    rcases handleCreate_resp b s now fid tok with ⟨msg, hEq⟩ | ⟨-, hEq⟩
    · simp [handler, readJson, hEq] at hst
    · show (handleCreate b s now fid tok).2.index = _
      rw [hEq]
      simp only [setIndex, hempty, List.filter_nil]
      rw [List.take_of_length_le (by simp [MAX_NOTES])]
  · intro hst hsome
    by_cases hm : b.id.getD "" = "" ∨ b.token.getD "" = ""
    · have hEq := handleDelete_missing b s hm
      simp [handler, readJson, hEq] at hst
    · push_neg at hm
      cases hlook : lookupNote s (b.id.getD "") with
      | none => exact absurd hlook hsome
      | some note =>
        by_cases htok : note.editToken = b.token.getD ""
        · have hEq := handleDelete_success b s note hm.1 hm.2 hlook htok
          show (handleDelete b s).2.index = _
          rw [hEq]
          simp [setIndex, hempty]
        · have hEq := handleDelete_forbidden b s note hm.1 hm.2 hlook htok
          simp [handler, readJson, hEq] at hst

theorem c10_witness :
    handleGet ⟨[("n1", ⟨"n1", "hi", none, 0, 0, "t"⟩)], none⟩ =
      (⟨200, .notesList []⟩, ⟨[("n1", ⟨"n1", "hi", none, 0, 0, "t"⟩)], none⟩) ∧
    (handler ⟨.DELETE, some ⟨none, none, some "n1", some "t"⟩⟩
      ⟨[("n1", ⟨"n1", "hi", none, 0, 0, "t"⟩)], none⟩ 0 "f" "g").2.index = some (.arr []) := by
  have h := c10_bad_index_treated_as_empty
    ⟨[("n1", ⟨"n1", "hi", none, 0, 0, "t"⟩)], none⟩ ⟨none, none, some "n1", some "t"⟩
    0 "f" "g" (Or.inl rfl)
  exact ⟨h.1, h.2.2 (by decide) (by decide)⟩

end SimpleNotes
